import Mathlib

/-!
Verification development for the talemate generation-request pipeline and
revision engine.

The Lean definitions below are a shallow embedding of the Python sources:

* `talemate/client/base.py` — cancellable dispatch (`_cancelable_generate`,
  `_poll_interrupt`, the dispatch check in `_send_prompt`), the rate-limit
  admission loop and its cleanup, the repetition-break retry loop
  (`auto_break_repetition`, `jiggle_randomness`, `repetition_adjustment`).
* `talemate/agents/editor/revision.py` — issue collection
  (`revision_collect_issues`, `_revision_detect_bad_prose_regex`) and the
  three revision methods (`revision_dedupe`, `revision_rewrite`,
  `revision_unslop`) dispatched by `revision_revise`.

Collaborators that live outside the embedded sources (the similarity
utilities of `talemate/util`, the provider, the embedding capability, the
focal tool-call protocol, the notification sink) enter the model as explicit
oracle inputs: their outputs are parameters, exactly as the code consumes
their return values.  Python strings are modelled through their character
lists; Python floats are idealised to exact integer arithmetic (percentages
are carried scaled by 100).
-/

set_option maxRecDepth 8000

/-! ## Python string primitives over character lists

Core `String` operations such as `trim` or `toLower` do not reduce inside
the kernel in this toolchain, so the embedding works with explicit
character-list implementations of the Python string operations the sources
use.  All of them operate on `String.data`.
-/

/-- Python `str.lower` for one character (ASCII, which is all the sources
compare). -/
def chLower (c : Char) : Char :=
  if 65 ≤ c.toNat ∧ c.toNat ≤ 90 then Char.ofNat (c.toNat + 32) else c

/-- Python `str.lower` (ASCII). -/
def pyLower (s : String) : String :=
  String.mk (s.data.map chLower)

/-- Python `str.startswith`. -/
def pyStartsWith (s pre : String) : Bool :=
  pre.data.isPrefixOf s.data

/-- Python slicing `s[n:]`. -/
def pyDrop (s : String) (n : Nat) : String :=
  String.mk (s.data.drop n)

/-- Python slicing `s[:-1]`. -/
def pyDropLast (s : String) : String :=
  String.mk s.data.dropLast

/-- Splits a character list at the first occurrence of `pat`:
`some (before, after)` when `pat` occurs, `none` otherwise.  This is the
common core of the Python operations `pat in s`, `s.split(pat, 1)[0]` and
`s.split(pat, 1)[1]`. -/
def splitFirstAux (pat : List Char) : List Char → Option (List Char × List Char)
  | [] => none
  | c :: rest =>
    if pat.isPrefixOf (c :: rest) then some ([], (c :: rest).drop pat.length)
    else
      match splitFirstAux pat rest with
      | none => none
      | some p => some (c :: p.1, p.2)

/-- Python `pat in s` (substring containment, for a non-empty `pat`). -/
def pyContains (s pat : String) : Bool :=
  (splitFirstAux pat.data s.data).isSome

/-- Python `s.split(pat, 1)[0]`; the whole string when `pat` is absent. -/
def pyBeforeFirst (s pat : String) : String :=
  match splitFirstAux pat.data s.data with
  | none => s
  | some p => String.mk p.1

/-- Python `s.split(pat, 1)[1]`; only used by the sources after a
containment check, so the `none` fallback is arbitrary. -/
def pyAfterFirst (s pat : String) : String :=
  match splitFirstAux pat.data s.data with
  | none => ""
  | some p => String.mk p.2

/-- Leading-whitespace removal, one half of Python `str.strip`. -/
def lcDropWs (s : List Char) : List Char :=
  s.dropWhile (fun c => c.isWhitespace)

/-- Python `str.strip()` on a character list. -/
def lcStrip (s : List Char) : List Char :=
  ((lcDropWs s).reverse.dropWhile (fun c => c.isWhitespace)).reverse

/-- Python `str.strip()`. -/
def pyStrip (s : String) : String :=
  String.mk (lcStrip s.data)

/-- Replacement of every non-overlapping occurrence of `pat` (left to
right), fuelled by the length of the scanned list; each step consumes at
least one character, so `fuel = s.length` always suffices. -/
def replaceAllAux (pat rep : List Char) : Nat → List Char → List Char
  | _, [] => []
  | 0, c :: rest => c :: rest
  | fuel + 1, c :: rest =>
    if pat.isPrefixOf (c :: rest) && !pat.isEmpty then
      rep ++ replaceAllAux pat rep fuel ((c :: rest).drop pat.length)
    else
      c :: replaceAllAux pat rep fuel rest

/-- Python `s.replace(pat, rep)` for a non-empty `pat`. -/
def pyReplace (s pat rep : String) : String :=
  String.mk (replaceAllAux pat.data rep.data s.data.length s.data)

/-- Split on a separator character, Python `s.split(sep)` for a one-character
separator (used for `"\n"` and `"|"`). -/
def lcSplitOnChar (sep : Char) : List Char → List (List Char)
  | [] => [[]]
  | c :: rest =>
    if c = sep then [] :: lcSplitOnChar sep rest
    else
      match lcSplitOnChar sep rest with
      | [] => [[c]]
      | h :: t => (c :: h) :: t

/-- Python `s.split(sep)` for a one-character separator. -/
def pySplitChar (s : String) (sep : Char) : List String :=
  (lcSplitOnChar sep s.data).map String.mk

/-- Joining with a one-character separator, Python `sep.join(lines)`. -/
def lcJoinChar (sep : Char) : List (List Char) → List Char
  | [] => []
  | [l] => l
  | l :: l2 :: rest => l ++ sep :: lcJoinChar sep (l2 :: rest)

/-- Python `"\n".join(lines)` and friends. -/
def pyJoinChar (sep : Char) (lines : List String) : String :=
  String.mk (lcJoinChar sep (lines.map String.data))

/-! ## Exact rounding arithmetic

`revision_dedupe` computes `round((o - d) / o * 100, 2)` and compares the
result with `90`.  Working over exact integers: the percentage scaled by a
further factor 100 is the rational `10000 * (o - d) / o`, Python `round`
is round-half-to-even, and the comparison `round(pct, 2) > 90` becomes
`roundHalfEvenInt (10000 * (o - d)) o > 9000`.
-/

/-- Round-half-to-even of the rational `p / q` (`q > 0`), Python `round`. -/
def roundHalfEvenInt (p q : Int) : Int :=
  let n := Int.fdiv p q
  let r := p - q * n
  if 2 * r < q then n
  else if q < 2 * r then n + 1
  else if n % 2 = 0 then n else n + 1

/-- Exactly `100 * round((o - d) / o * 100, 2)` as an exact integer, the dedupe
reduction percentage rounded to two decimals and scaled by 100.  The source
comparison `reduction > 90` is `reductionTimes100 o d > 9000`. -/
def reductionTimes100 (o d : Nat) : Int :=
  roundHalfEvenInt (10000 * ((o : Int) - (d : Int))) (o : Int)

/-! ## Cancellable dispatch (`ClientBase._cancelable_generate`)

`_cancelable_generate` races the generation task against the
cancellation-poll task (`asyncio.wait` with `FIRST_COMPLETED`), cancels the
pending task and returns the result of the completed one.  The poll task
completes by returning a `GenerationCancelled` value when the scene is gone,
inactive, or has cancellation requested; `_send_prompt` then raises that
value (lines 961-967).  Which task completes first is scheduling input, so
the race winner is the parameter of the model.
-/

/-- The `GenerationCancelled` exception value produced by the poll task. -/
structure GenerationCancelled where
  message : String
deriving DecidableEq

/-- Value returned by the poll coroutine of `_poll_interrupt` when it
completes. -/
def poll_interrupt_result : GenerationCancelled :=
  ⟨"Generation cancelled"⟩

/-- Condition under which one iteration of the `_poll_interrupt` loop breaks
(and hence the watch task completes): no scene, inactive scene, or
cancellation requested. -/
structure SceneState where
  active : Bool
  cancelRequested : Bool
deriving DecidableEq

/-- The poll loop of `_poll_interrupt` breaks exactly when the scene is
absent, inactive, or has `cancel_requested` set. -/
def poll_trips : Option SceneState → Bool
  | none => true
  | some s => !s.active || s.cancelRequested

/-- Which of the two raced tasks completes first. -/
inductive RaceWinner where
  | generation (result : String)
  | watch
deriving DecidableEq

/-- Embeds `_cancelable_generate`: the completed task supplies the returned value
(`Sum.inl` is the poll result, `Sum.inr` the generation result), the pending
task is cancelled.  Components: (returned value, generation task cancelled,
watch task cancelled). -/
def cancelable_generate : RaceWinner → (GenerationCancelled ⊕ String) × Bool × Bool
  | RaceWinner.generation r => (Sum.inr r, false, true)
  | RaceWinner.watch => (Sum.inl poll_interrupt_result, true, false)

/-- Outcome of a dispatch as observed by the caller of `_send_prompt`:
`returned = Except.error e` models the raise of `GenerationCancelled`. -/
structure DispatchOutcome where
  returned : Except GenerationCancelled String
  generationTaskCancelled : Bool
  watchTaskCancelled : Bool

/-- The dispatch step of `_send_prompt` (lines 961-967): call
`_cancelable_generate` and raise the result when it is a
`GenerationCancelled` instance. -/
def send_prompt_dispatch (w : RaceWinner) : DispatchOutcome :=
  match cancelable_generate w with
  | (Sum.inl e, g, p) => ⟨Except.error e, g, p⟩
  | (Sum.inr r, g, p) => ⟨Except.ok r, g, p⟩

/-! ## Rate-limit admission loop of `_send_prompt` (lines 874-910)

The loop retries `rate_limit_counter.increment()` until it grants a slot,
emitting a `rate_limited` event on every denial; when the scene vanishes or
requests cancellation the loop aborts.  The `rate_limit_reset` emission sits
after the loop, before the `if aborted: raise`.  The outcomes of the
successive `increment()` calls depend on the wall clock (the counter is a
rolling one-minute window implemented outside the embedded sources), so they
enter the model as the boolean stream `grant`; `sceneOk i` tells whether the
scene was still active at the i-th denial. -/

/-- Events the admission code emits. -/
inductive RLEvent where
  | rateLimited
  | rateLimitReset
deriving DecidableEq

/-- Final state of the admission code. -/
inductive RLOutcome where
  | granted
  | cancelled
deriving DecidableEq

/-- The `while not increment()` loop: returns the events emitted inside the
loop and the `aborted` flag; `none` when the fuel runs out before the loop
exits. -/
def rateLimitLoop (grant sceneOk : Nat → Bool) : Nat → Nat → Option (List RLEvent × Bool)
  | 0, _ => none
  | fuel + 1, i =>
    if grant i then some ([], false)
    else if !(sceneOk i) then some ([RLEvent.rateLimited], true)
    else
      match rateLimitLoop grant sceneOk fuel (i + 1) with
      | none => none
      | some p => some (RLEvent.rateLimited :: p.1, p.2)

/-- The full admission block: loop, then the unconditional
`rate_limit_reset` emission, then `raise GenerationCancelled` when the loop
aborted. -/
def rateLimitGate (grant sceneOk : Nat → Bool) (fuel : Nat) :
    Option (List RLEvent × RLOutcome) :=
  match rateLimitLoop grant sceneOk fuel 0 with
  | none => none
  | some p =>
    some (p.1 ++ [RLEvent.rateLimitReset],
      if p.2 then RLOutcome.cancelled else RLOutcome.granted)

/-! ## Counter consumption of a dispatch (lines 874-924 and 1018-1024)

`_send_prompt` increments the rate-limit counter once to get admitted and
then, in the `finally` block of the main attempt, increments it once more on
every exit path of the attempt (success, caught provider error, raised
cancellation).  `CounterRateLimiter` itself lives in
`talemate/client/ratelimit.py`, which is not among the embedded sources. -/

/-- Modelled from the spec: `CounterRateLimiter`
(`talemate/client/ratelimit.py`) is not among the embedded sources; spec
section 4.1 describes it as a counter bound to a one-minute window whose
`admit()` "attempts to consume one slot in the current one-minute window;
returns whether the slot was granted".  Within a single window the count
only grows; the window reset is outside this model. -/
structure CounterRateLimiter where
  count : Nat
  maxRequests : Nat
deriving DecidableEq

/-- Modelled from the spec: one `increment()` call — consume a slot and
report success when below the per-window maximum, otherwise deny and leave
the count unchanged. -/
def CounterRateLimiter.increment (c : CounterRateLimiter) : Bool × CounterRateLimiter :=
  if c.count < c.maxRequests then (true, ⟨c.count + 1, c.maxRequests⟩)
  else (false, c)

/-- How the body of the main attempt of `_send_prompt` finishes. -/
inductive BodyOutcome where
  | success (text : String)
  | genError
  | cancelled
deriving DecidableEq

/-- What `_send_prompt` hands back to its caller. -/
inductive SendResult where
  | ok (text : String)
  | cancelledErr
deriving DecidableEq

/-- The value produced for each body outcome: provider errors are caught and
degrade to an empty response, cancellation propagates. -/
def bodyResult : BodyOutcome → SendResult
  | BodyOutcome.success t => SendResult.ok t
  | BodyOutcome.genError => SendResult.ok ""
  | BodyOutcome.cancelled => SendResult.cancelledErr

/-- The admission loop threading the counter itself: on denial the counter
is unchanged and the loop either aborts (scene gone) or retries. -/
def admissionLoop (sceneOk : Nat → Bool) : Nat → Nat → CounterRateLimiter →
    Option (Bool × CounterRateLimiter)
  | 0, _, _ => none
  | fuel + 1, i, c =>
    let g := c.increment
    if g.1 then some (false, g.2)
    else if !(sceneOk i) then some (true, g.2)
    else admissionLoop sceneOk fuel (i + 1) g.2

/-- Embeds `_send_prompt` with a configured rate limiter, tracking the counter:
admission loop, then the attempt body, then the `finally` increment whose
result is discarded.  The aborted path raises before the attempt is entered,
so it skips the `finally` increment. -/
def sendPromptWithLimiter (sceneOk : Nat → Bool) (body : BodyOutcome)
    (fuel : Nat) (c : CounterRateLimiter) :
    Option (SendResult × CounterRateLimiter) :=
  match admissionLoop sceneOk fuel 0 c with
  | none => none
  | some (true, c1) => some (SendResult.cancelledErr, c1)
  | some (false, c1) =>
    let c2 := (c1.increment).2
    some (bodyResult body, c2)

/-! ## Repetition-break retry loop (`auto_break_repetition`, lines 1026-1148)

`auto_break_repetition` checks the response against the lines of the
finalized prompt (threshold 80) and, while repetitive and retries remain,
jiggles the sampling parameters, pads the max-token budget, marks the
prompt, redispatches, dedupes the new response against the matched line and
re-checks, decrementing the retry budget each iteration.

The sampling parameters are a Python dict shared by reference with the
caller; `jiggle_randomness` and the max-token pad write into that same dict.
To make the in-place mutation observable the model carries an explicit heap
of parameter mappings addressed by references, with an allocation counter:
writing through a reference leaves `nextRef` unchanged, creating a copy
would bump it. -/

/-- The sampling parameters the loop touches: `temperature` (a float in the
source, carried here as an exact rational) and the max-token budget. -/
structure ParamMap where
  temperature : Rat
  maxTokens : Nat

/-- Heap of parameter mappings: Python dict identity made explicit. -/
structure Heap where
  get : Nat → ParamMap
  nextRef : Nat

/-- Write through a reference: the Python in-place dict update. -/
def heapSet (h : Heap) (r : Nat) (v : ParamMap) : Heap :=
  ⟨fun i => if i = r then v else h.get i, h.nextRef⟩

/-- Embeds `ClientBase.jiggle_randomness` (lines 1153-1161): reads the current
temperature and overwrites it in place with the value drawn by
`random.uniform(temp + offset * 0.3, temp + offset)`; the drawn value `u` is
an oracle input.  (`TabbyAPIClient.jiggle_randomness` additionally writes
`min_p` and `presence_penalty` in place into the same mapping.) -/
def jiggle_randomness (h : Heap) (r : Nat) (u : Rat) : Heap :=
  heapSet h r ⟨u, (h.get r).maxTokens⟩

/-- Embeds `prompt_param[self.max_tokens_param_name] += pad_max_tokens`
(line 1103): in-place increment of the max-token budget. -/
def padMaxTokens (h : Heap) (r : Nat) (pad : Nat) : Heap :=
  heapSet h r ⟨(h.get r).temperature, (h.get r).maxTokens + pad⟩

/-- Embeds `ClientBase.repetition_adjustment` (lines 1172-1194): each line starting
with `[$REPETITION|` is replaced by the segment after the bar without its
closing bracket when `is_repetitive`, and by an empty line otherwise. -/
def repetition_adjustment (prompt : String) (is_repetitive : Bool) : String :=
  let lines := pySplitChar prompt '\n'
  let newLines := lines.map (fun line =>
    if pyStartsWith line "[$REPETITION|" then
      if is_repetitive then pyDropLast ((pySplitChar line '|').getD 1 "")
      else ""
    else line)
  pyJoinChar '\n' newLines

/-- Oracle inputs of the retry loop: the collaborators of
`auto_break_repetition` that live outside the embedded sources.
`sim response lines` is `util.similarity_score(response, lines, 80)`
projected to `(is_repetition, matched_line)`; `gen i` is the response of the
i-th redispatch; `dedupe` is `util.dedupe_sentences(response, matched, 85)`;
`stripPartial` is `util.strip_partial_sentences`; `temps i` is the
temperature drawn by the i-th jiggle. -/
structure ABROracle where
  sim : String → List String → Bool × String
  gen : Nat → String
  dedupe : String → String → String
  stripPartial : String → String
  temps : Nat → Rat

/-- Result of the repetition-break code: final response, final (possibly
marker-mutated) prompt, final heap, and how many redispatches were issued. -/
structure ABRResult where
  response : String
  finalizedPrompt : String
  heap : Heap
  dispatches : Nat

/-- The `while is_repetition and retries > 0` loop of
`auto_break_repetition`: jiggle and pad the parameter mapping in place,
mark the prompt, redispatch, dedupe against the matched line (falling back
to the raw retried response when deduping strips everything), re-check
similarity against the adjusted prompt lines, decrement the budget. -/
def abrLoop (o : ABROracle) (ref pad : Nat) :
    Nat → Nat → Bool → String → String → String → Heap → ABRResult
  | 0, _, _, _, prompt, response, h => ⟨response, prompt, h, 0⟩
  | retries + 1, iter, isRep, matched, prompt, response, h =>
    if isRep then
      let h1 := jiggle_randomness h ref (o.temps iter)
      let h2 := padMaxTokens h1 ref pad
      let prompt1 := repetition_adjustment prompt true
      let retried := o.gen iter
      let response1 := o.dedupe retried matched
      let response2 :=
        if pyStrip (o.stripPartial response1) = "" then retried else response1
      let s := o.sim response2 (pySplitChar prompt1 '\n')
      let rest := abrLoop o ref pad retries (iter + 1) s.1 s.2 prompt1 response2 h2
      ⟨rest.response, rest.finalizedPrompt, rest.heap, rest.dispatches + 1⟩
    else ⟨response, prompt, h, 0⟩

/-- Embeds `auto_break_repetition` (lines 1026-1148): skip when the feature is
disabled, the response is blank, or the jiggle is not enabled for this
request kind; otherwise check similarity against the prompt lines once and
either clear the repetition marker (not repetitive) or enter the retry
loop.  `ref` addresses the `prompt_param` mapping that was already passed to
the initial dispatch. -/
def auto_break_repetition (o : ABROracle) (enabled jiggleEnabledForKind : Bool)
    (ref : Nat) (finalizedPrompt response : String) (retries : Nat) (h : Heap) :
    ABRResult :=
  if !enabled || pyStrip response = "" then ⟨response, finalizedPrompt, h, 0⟩
  else if !jiggleEnabledForKind then ⟨response, finalizedPrompt, h, 0⟩
  else
    let s := o.sim response (pySplitChar finalizedPrompt '\n')
    if !s.1 then ⟨response, repetition_adjustment finalizedPrompt false, h, 0⟩
    else abrLoop o ref 32 retries 0 true s.2 finalizedPrompt response h

/-! ## Revision data model (`talemate/agents/editor/revision.py`)

`revision_collect_issues` gathers repetition matches (via the fuzzy or the
semantic similarity engine — collaborators, so the match list is an oracle
input) and bad-prose findings, and renders one log line per finding.  The
three revision methods consume the resulting `Issues` value. -/

/-- Embeds `talemate.util.dedupe.SimilarityMatch`: similarity scores are on the
0-100 scale, carried here as exact integers. -/
structure SimilarityMatch where
  original : String
  matched : String
  similarity : Int
  left_neighbor : Option String := none
  right_neighbor : Option String := none
deriving DecidableEq

/-- One entry of `Issues.repetition` (the dict built at lines 805-812). -/
structure RepetitionEntry where
  text_a : String
  text_b : String
  similarity : Int
deriving DecidableEq

/-- One bad-prose finding (the dicts built by the regex and the semantic
detectors). -/
structure BadProse where
  phrase : String
  instructions : String
  reason : String
  matched : String
  method : String
  similarity : Option Int := none
deriving DecidableEq

/-- The `Issues` schema of `revision.py`. -/
structure Issues where
  repetition : List RepetitionEntry
  repetition_matches : List SimilarityMatch
  bad_prose : List BadProse
  repetition_log : List String
  bad_prose_log : List String

/-- The `Issues.log` property: repetition log followed by bad-prose log. -/
def Issues.log (i : Issues) : List String :=
  i.repetition_log ++ i.bad_prose_log

/-- Embeds `revision_collect_issues` (lines 773-831): the repetition matches come
from the configured similarity engine and the bad-prose findings from
`revision_detect_bad_prose` (both collaborator outputs, passed in); the
effective `detectBadProse` flag already accounts for the configuration, the
writing style, and the caller argument.  One log line is rendered per
finding. -/
def collectIssues (matchList : List SimilarityMatch) (badProseFound : List BadProse)
    (detectBadProse : Bool) : Issues where
  repetition := matchList.map (fun m => ⟨m.original, m.matched, m.similarity⟩)
  repetition_matches := matchList
  bad_prose := if detectBadProse then badProseFound else []
  repetition_log := matchList.map (fun m =>
    "Repetition: `" ++ m.original ++ "` -> `" ++ m.matched ++ "` (similarity: "
      ++ toString m.similarity ++ ")")
  bad_prose_log := if detectBadProse then
      badProseFound.map (fun b =>
        "Bad prose: `" ++ b.phrase ++ "` (reason: " ++ b.reason ++ ", matched: "
          ++ b.matched ++ ", instructions: " ++ b.instructions ++ ")")
    else []

/-! ## Pattern-based bad-prose detection (lines 750-771)

`_revision_detect_bad_prose_regex` compiles `phrase.phrase` and calls
`pattern.search(sentence, re.IGNORECASE)`.  The second positional argument
of `re.Pattern.search` is the start position, not a flag set, and
`re.IGNORECASE` has the integer value 2: the call searches case-sensitively
from index 2 of the sentence.  Patterns are modelled as literal
(metacharacter-free) strings, for which a regex search is exactly a
substring search. -/

/-- A `PhraseDetection` entry of the configured writing style. -/
structure PhraseDetection where
  phrase : String
  classification : String
  instructions : String
  active : Bool
  match_method : String
deriving DecidableEq

/-- Embeds `re.Pattern.search(sentence, pos)` for a literal pattern: case-sensitive
occurrence starting at index `pos` or later. -/
def reSearchFrom (pat sentence : String) (pos : Nat) : Bool :=
  (splitFirstAux pat.data (sentence.data.drop pos)).isSome

/-- The integer value of `re.IGNORECASE`. -/
def RE_IGNORECASE_VALUE : Nat := 2

/-- Embeds `_revision_detect_bad_prose_regex` as written: skip unless the phrase is
classified `unwanted`; then `pattern.search(sentence, re.IGNORECASE)`, i.e.
a case-sensitive search starting at index 2. -/
def detect_bad_prose_regex (sentence : String) (phrase : PhraseDetection) :
    List BadProse :=
  if pyLower phrase.classification ≠ "unwanted" then []
  else if !(reSearchFrom phrase.phrase sentence RE_IGNORECASE_VALUE) then []
  else
    [⟨sentence, phrase.instructions, "Unwanted phrase found", phrase.phrase,
      "regex", none⟩]

/-- Modelled from the spec: the documented behaviour of the pattern-based
detector — "pattern-based phrases are checked per sentence via
case-insensitive pattern search, flagged only when classified unwanted".
For a literal pattern a case-insensitive search over the whole sentence is a
substring search after lowercasing both sides. -/
def detect_bad_prose_regex_spec (sentence : String) (phrase : PhraseDetection) :
    Bool :=
  if pyLower phrase.classification = "unwanted" then
    (splitFirstAux (pyLower phrase.phrase).data (pyLower sentence).data).isSome
  else false

/-! ## The three revision methods

The provider responses (`Prompt.request`, the focal tool-call protocol) and
the similarity collaborators are oracle inputs collected in `RevisionEnv`.
Exceptions raised inside a method surface as `Except.error` and are caught
by `revision_revise`, which then returns the original text. -/

/-- Embeds `RevisionInformation` (the fields the embedded paths read). -/
structure RevisionInformation where
  text : String
  characterName : Option String := none
  contextType : Option String := none
  summarizationHistory : Option (List String) := none

/-- Exceptions of the embedded revision paths: the division by zero in the
dedupe reduction computation when the stripped text is empty. -/
inductive RevError where
  | zeroDiv
deriving DecidableEq

/-- Collaborator outputs consumed by the revision methods:
`matchList` is what the configured similarity engine returned, `badProseFound`
what `revision_detect_bad_prose` returned, `detectBadProse` the effective
configuration gate (enabled and a writing style present), `minIssues` the
configured minimum, `dedupeFn` is `util.dedupe.dedupe_sentences_from_matches`
(outside the embedded sources), `focalResult` the result of the single
`rewrite_text` tool call (`none` when accessing `state.calls[0]` raises),
and `modelResponse` the raw response of the unslop prompt. -/
structure RevisionEnv where
  matchList : List SimilarityMatch
  badProseFound : List BadProse
  detectBadProse : Bool
  minIssues : Nat
  dedupeFn : String → List SimilarityMatch → String
  focalResult : Option String
  modelResponse : String

/-- The speaker-name handling shared by all three methods:
`character_name_prefix = text.startswith(f"{name}: ")` and, when present,
`text = text[len(name) + 2:]`. -/
def stripName (text : String) (characterName : Option String) : Bool × String :=
  match characterName with
  | none => (false, text)
  | some name =>
    if pyStartsWith text (name ++ ": ") then (true, pyDrop text (name.length + 2))
    else (false, text)

/-- The prefix-stripped text a revision method works on. -/
def dedupe_input (info : RevisionInformation) : String :=
  (stripName info.text info.characterName).2

/-- The deduped text after the two cleanups
`text.replace(chr(34) + chr(34), "").replace("**", "")` of
`revision_dedupe`. -/
def dedupe_cleaned (env : RevisionEnv) (info : RevisionInformation) : String :=
  pyReplace
    (pyReplace
      (env.dedupeFn (dedupe_input info)
        (collectIssues env.matchList env.badProseFound false).repetition_matches)
      "\"\"" "")
    "**" ""

/-- Re-attachment of the speaker prefix as done by `revision_dedupe`
(unconditional). -/
def reattachName (t : String) (had : Bool) (characterName : Option String) :
    String :=
  if had then (characterName.getD "") ++ ": " ++ t else t

/-- Re-attachment of the speaker prefix as done by `revision_rewrite` and
`revision_unslop` (only when the revised text does not already start with
it). -/
def reattachNameChecked (t : String) (had : Bool) (characterName : Option String) :
    String :=
  if had && !(pyStartsWith t ((characterName.getD "") ++ ": ")) then
    (characterName.getD "") ++ ": " ++ t
  else t

/-- Embeds `revision_dedupe` (lines 833-932): strip the speaker prefix, collect
repetition-only issues, return the original text when there are no matches;
otherwise dedupe, clean doubled quotes and emphasis markers, revert to the
original text when the rounded reduction percentage exceeds 90, and
re-attach the prefix.  The reduction division raises when the stripped text
is empty. -/
def revision_dedupe (env : RevisionEnv) (info : RevisionInformation) :
    Except RevError String :=
  let original_text := info.text
  let text := dedupe_input info
  let original_length := text.length
  let issues := collectIssues env.matchList env.badProseFound false
  if issues.repetition_matches.isEmpty then Except.ok original_text
  else
    let text2 := dedupe_cleaned env info
    let deduped_length := text2.length
    if original_length = 0 then Except.error RevError.zeroDiv
    else if 9000 < reductionTimes100 original_length deduped_length then
      Except.ok original_text
    else
      Except.ok (reattachName text2 (stripName info.text info.characterName).1
        info.characterName)

/-- Embeds `revision_rewrite` (lines 934-1088): strip the prefix, collect full
issues; return the original text when no issues were logged or fewer than
the configured minimum; otherwise run the analysis prompt and the single
`rewrite_text` tool call — when reading its result raises, return the
original text — and re-attach the prefix when missing. -/
def revision_rewrite (env : RevisionEnv) (info : RevisionInformation) :
    Except RevError String :=
  let original_text := info.text
  let p := stripName info.text info.characterName
  let issues := collectIssues env.matchList env.badProseFound env.detectBadProse
  let num_issues := issues.log.length
  if num_issues = 0 then Except.ok original_text
  else if num_issues < env.minIssues then Except.ok original_text
  else
    match env.focalResult with
    | none => Except.ok original_text
    | some revision =>
      Except.ok (reattachNameChecked revision p.1 info.characterName)

/-- The `<FIX>` extraction of `revision_unslop` (lines 1156-1177): `none`
when the method returns the original text — no opening delimiter; no
closing delimiter while another `<` is present; or the extracted patch is
empty (the emptiness test precedes the `strip()`). -/
def unslopFix (response : String) : Option String :=
  match splitFirstAux ("<FIX>").data response.data with
  | none => none
  | some p =>
    match splitFirstAux ("</FIX>").data p.2 with
    | some q =>
      if q.1.isEmpty then none else some (String.mk (lcStrip q.1))
    | none =>
      if (splitFirstAux ['<'] p.2).isSome then none
      else if p.2.isEmpty then none
      else some (String.mk (lcStrip p.2))

/-- Embeds `revision_unslop` (lines 1090-1201): strip the prefix, collect full
issues (they only feed the prompt), run the unslop prompt, extract the
`<FIX>` patch — returning the original text when extraction fails — and
re-attach the prefix when missing. -/
def revision_unslop (env : RevisionEnv) (info : RevisionInformation) :
    Except RevError String :=
  let original_text := info.text
  let p := stripName info.text info.characterName
  let _issues := collectIssues env.matchList env.badProseFound env.detectBadProse
  match unslopFix env.modelResponse with
  | none => Except.ok original_text
  | some fix =>
    Except.ok (reattachNameChecked fix p.1 info.characterName)

/-- The configured revision method. -/
inductive RevisionMethod where
  | dedupe
  | rewrite
  | unslop
deriving DecidableEq

/-- The method dispatch inside `revision_revise` (lines 546-551). -/
def run_revision_method (m : RevisionMethod) (env : RevisionEnv)
    (info : RevisionInformation) : Except RevError String :=
  match m with
  | RevisionMethod.dedupe => revision_dedupe env info
  | RevisionMethod.rewrite => revision_rewrite env info
  | RevisionMethod.unslop => revision_unslop env info

/-- Embeds `revision_revise` (lines 536-561): dispatch on the method; any
exception (including `GenerationCancelled`) is caught and the original text
is returned. -/
def revision_revise (m : RevisionMethod) (env : RevisionEnv)
    (info : RevisionInformation) : String :=
  match run_revision_method m env info with
  | Except.ok t => t
  | Except.error _ => info.text

/-! ## Concrete instances used by counterexamples and witnesses -/

/-- A stream that always answers `true`. -/
def allTrue : Nat → Bool := fun _ => true

/-- A stream that always answers `false`. -/
def allFalse : Nat → Bool := fun _ => false

/-- A revision environment with zero detected issues whose unslop prompt
response nevertheless carries a `<FIX>` patch. -/
def c2xEnv : RevisionEnv :=
  ⟨[], [], true, 1, fun t _ => t, none, "<FIX>Something else entirely.</FIX>"⟩

/-- Text under revision for the C2 counterexample. -/
def c2xInfo : RevisionInformation :=
  ⟨"The hero waited.", none, none, none⟩

/-- A zero-issue environment whose unslop response contains no `<FIX>`. -/
def c2wEnv : RevisionEnv :=
  ⟨[], [], true, 1, fun t _ => t, none, "No change needed."⟩

/-- Text under revision for the C2 witness. -/
def c2wInfo : RevisionInformation :=
  ⟨"All good.", none, none, none⟩

/-- An unslop response whose extracted patch is a single space: non-empty
before `strip()`, empty after it. -/
def c3xEnv : RevisionEnv :=
  ⟨[], [], true, 1, fun t _ => t, none, "<FIX> </FIX>"⟩

/-- Text under revision for the C3 counterexample. -/
def c3xInfo : RevisionInformation :=
  ⟨"Hello there.", none, none, none⟩

/-- An unslop response with no opening `<FIX>` delimiter. -/
def c3wEnv : RevisionEnv :=
  ⟨[], [], true, 1, fun t _ => t, none, "I think this is fine."⟩

/-- Text under revision for the C3 witness. -/
def c3wInfo : RevisionInformation :=
  ⟨"Original narration line.", none, none, none⟩

/-- The sentence of the C5 failing input. -/
def c5Sentence : String := "Heavy rain fell."

/-- The C5 failing phrase: a literal pattern classified unwanted which
matches the sentence case-insensitively. -/
def c5Phrase : PhraseDetection :=
  ⟨"heavy rain", "unwanted", "avoid heavy weather descriptions", true, "regex"⟩

/-- A second C5 input showing the position skip alone: the pattern matches
the sentence case-sensitively, but only within the first two characters. -/
def c5Sentence2 : String := "abcd"

/-- Pattern for the second C5 input. -/
def c5Phrase2 : PhraseDetection :=
  ⟨"ab", "unwanted", "avoid ab", true, "regex"⟩

/-- Exactly 2001 copies of the letter a: the dedupe input of the C7 counterexample. -/
def c7xText : String := String.mk (List.replicate 2001 'a')

/-- Exactly 200 copies of the letter b: what dedupe leaves of `c7xText`, a reduction
of 90.00499... percent — above 90, yet rounded to 90.00. -/
def c7xDedupe : String := String.mk (List.replicate 200 'b')

/-- Environment of the C7 counterexample. -/
def c7xEnv : RevisionEnv :=
  ⟨[⟨"a", "b", 90, none, none⟩], [], false, 1, fun _ _ => c7xDedupe, none, ""⟩

/-- Revision input of the C7 counterexample. -/
def c7xInfo : RevisionInformation :=
  ⟨c7xText, none, none, none⟩

/-- Environment of the C7 witness: dedupe keeps 1 of 20 characters, a 95
percent reduction. -/
def c7wEnv : RevisionEnv :=
  ⟨[⟨"a", "b", 90, none, none⟩], [], false, 1, fun _ _ => "b", none, ""⟩

/-- Revision input of the C7 witness. -/
def c7wInfo : RevisionInformation :=
  ⟨"aaaaaaaaaaaaaaaaaaaa", none, none, none⟩

/-- An unslop response whose patch is made of two spaces. -/
def c8xEnv : RevisionEnv :=
  ⟨[], [], true, 1, fun t _ => t, none, "<FIX>  </FIX>"⟩

/-- Non-empty revision input of the C8 counterexample. -/
def c8xInfo : RevisionInformation :=
  ⟨"The sun rose.", none, none, none⟩

/-- Environment of the C8 witness. -/
def c8wEnv : RevisionEnv :=
  ⟨[], [], true, 1, fun t _ => t, none, ""⟩

/-- Non-empty revision input of the C8 witness. -/
def c8wInfo : RevisionInformation :=
  ⟨"The sun rose over the hills.", none, none, none⟩

/-- Initial heap of the C9 counterexample: one parameter mapping at
reference 0 with temperature 1 and a 100-token budget. -/
def c9Heap : Heap := ⟨fun _ => ⟨1, 100⟩, 1⟩

/-- Oracle of the C9 counterexample: the first similarity check (on the
response string repeat) reports a repetition, the redispatched response is
fresh and passes. -/
def c9Oracle : ABROracle :=
  ⟨fun resp _ => (if resp = "repeat" then true else false, "the matched line"),
   fun _ => "fresh", fun r _ => r, fun r => r, fun _ => 2⟩

/-- Counter of the C10 witness: an empty one-minute window of capacity 5. -/
def c10wCounter : CounterRateLimiter := ⟨0, 5⟩

/-! ## Helper lemmas -/

theorem collectIssues_repetition_matches (m : List SimilarityMatch)
    (b : List BadProse) (d : Bool) :
    (collectIssues m b d).repetition_matches = m := rfl

theorem collectIssues_log_nil (d : Bool) :
    (collectIssues [] [] d).log = [] := by
  cases d <;> rfl

theorem heapSet_get_self (h : Heap) (r : Nat) (v : ParamMap) :
    (heapSet h r v).get r = v := by
  simp [heapSet]

theorem heapSet_nextRef (h : Heap) (r : Nat) (v : ParamMap) :
    (heapSet h r v).nextRef = h.nextRef := rfl

theorem rateLimitLoop_no_reset (grant sceneOk : Nat → Bool) :
    ∀ (fuel i : Nat) (p : List RLEvent × Bool),
      rateLimitLoop grant sceneOk fuel i = some p →
      p.1.count RLEvent.rateLimitReset = 0 := by
  intro fuel
  induction fuel with
  | zero => intro i p h; simp [rateLimitLoop] at h
  | succ n ih =>
    intro i p h
    rw [rateLimitLoop] at h
    by_cases hg : grant i
    · rw [if_pos hg] at h
      cases h
      rfl
    · rw [if_neg hg] at h
      by_cases hs : sceneOk i
      · rw [hs] at h
        simp only [Bool.not_true, Bool.false_eq_true, if_false] at h
        revert h
        cases hrec : rateLimitLoop grant sceneOk n (i + 1) with
        | none => intro h; simp at h
        | some q =>
          intro h
          cases h
          have hq := ih (i + 1) q hrec
          simp [List.count_cons, hq]
      · have hs' : sceneOk i = false := by
          cases hcase : sceneOk i
          · rfl
          · exact absurd hcase hs
        rw [hs'] at h
        simp only [Bool.not_false, if_true] at h
        cases h
        rfl

theorem abrLoop_dispatches_le (o : ABROracle) (ref pad : Nat) :
    ∀ (retries iter : Nat) (isRep : Bool) (matched prompt response : String)
      (h : Heap),
      (abrLoop o ref pad retries iter isRep matched prompt response h).dispatches
        ≤ retries := by
  intro retries
  induction retries with
  | zero =>
    intro iter isRep matched prompt response h
    simp [abrLoop]
  | succ n ih =>
    intro iter isRep matched prompt response h
    cases isRep with
    | false => simp [abrLoop]
    | true =>
      rw [abrLoop]
      simp only [if_true]
      exact Nat.succ_le_succ (ih _ _ _ _ _ _)

theorem reductionTimes100_full (o : Nat) (h : o ≠ 0) :
    reductionTimes100 o 0 = 10000 := by
  have ho : (o : Int) ≠ 0 := by exact_mod_cast h
  have hpos : (0 : Int) < (o : Int) := by
    have := Nat.pos_of_ne_zero h
    exact_mod_cast this
  unfold reductionTimes100 roundHalfEvenInt
  rw [Nat.cast_zero, sub_zero, mul_comm, Int.mul_fdiv_cancel_left 10000 ho]
  simp [hpos]

theorem string_ne_empty_of_length_ne_zero {t : String} (h : t.length ≠ 0) :
    t ≠ "" := by
  intro he
  subst he
  exact h rfl

theorem name_colon_append_ne_empty (nm t : String) : nm ++ ": " ++ t ≠ "" := by
  intro h
  have hd := congrArg String.data h
  rw [String.data_append, String.data_append] at hd
  simp at hd

/-! ## Claim theorems -/

/-- Claim C1: when the cancellation watch completes first, the dispatch
raises the cancellation error, the generation task is cancelled, and no
generation result is ever returned; when generation completes first its
result is returned and the watch task is cancelled with no error raised. -/
theorem c1_cancellation_race :
    (∀ r : String,
      send_prompt_dispatch (RaceWinner.generation r) =
        ⟨Except.ok r, false, true⟩) ∧
    send_prompt_dispatch RaceWinner.watch =
      ⟨Except.error poll_interrupt_result, true, false⟩ ∧
    (∀ r : String,
      (send_prompt_dispatch RaceWinner.watch).returned ≠ Except.ok r) :=
  ⟨fun _ => rfl, rfl, fun _ h => nomatch h⟩

/-- Claim C4 (counterexample): the code emits the rate-limit-reset
notification even when the very first `increment()` grants the slot (no
denial ever happened), and also on the aborted path right before the
cancellation is raised — the claim says neither emits a reset. -/
theorem c4_counterexample_spurious_reset :
    rateLimitGate allTrue allTrue 1 =
      some ([RLEvent.rateLimitReset], RLOutcome.granted) ∧
    rateLimitGate allFalse allFalse 1 =
      some ([RLEvent.rateLimited, RLEvent.rateLimitReset], RLOutcome.cancelled) := by
  exact ⟨rfl, rfl⟩

/-- Claim C4 (amended): whenever the admission code of `_send_prompt` runs
to completion with a configured rate limiter, the rate-limit-reset
notification is emitted exactly once — on eventual admission, on
first-attempt admission, and on the aborted (cancelled) path alike. -/
theorem c4_amended_reset_exactly_once :
    ∀ (grant sceneOk : Nat → Bool) (fuel : Nat) (evs : List RLEvent)
      (out : RLOutcome),
      rateLimitGate grant sceneOk fuel = some (evs, out) →
      evs.count RLEvent.rateLimitReset = 1 := by
  intro grant sceneOk fuel evs out h
  unfold rateLimitGate at h
  revert h
  cases hrec : rateLimitLoop grant sceneOk fuel 0 with
  | none => intro h; simp at h
  | some p =>
    intro h
    cases h
    have hp := rateLimitLoop_no_reset grant sceneOk fuel 0 p hrec
    simp [List.count_append, hp]

/-- Claim C4 (witness): the amended theorem applied to a run admitted on
the first attempt. -/
theorem c4_amended_witness :
    ([RLEvent.rateLimitReset] : List RLEvent).count RLEvent.rateLimitReset = 1 :=
  c4_amended_reset_exactly_once allTrue allTrue 3 [RLEvent.rateLimitReset]
    RLOutcome.granted rfl

/-- Claim C5: `_revision_detect_bad_prose_regex` passes `re.IGNORECASE`
(value 2) as the `pos` argument of `Pattern.search`, so the search is
case-sensitive and skips the first two characters of the sentence.  At the
failing inputs the documented behaviour (case-insensitive search over the
whole sentence) flags the sentence while the code flags nothing. -/
theorem c5_regex_search_code_bug :
    detect_bad_prose_regex c5Sentence c5Phrase = [] ∧
    detect_bad_prose_regex_spec c5Sentence c5Phrase = true ∧
    detect_bad_prose_regex c5Sentence2 c5Phrase2 = [] ∧
    detect_bad_prose_regex_spec c5Sentence2 c5Phrase2 = true := by
  refine ⟨?_, ?_, ?_, ?_⟩ <;> decide

/-- Claim C6: the repetition-break loop issues at most `retries`
redispatches — the budget is decremented every iteration and the loop stops
at zero regardless of whether the last response is still repetitive. -/
theorem c6_retry_budget_bound :
    ∀ (o : ABROracle) (enabled jiggleEnabledForKind : Bool) (ref : Nat)
      (finalizedPrompt response : String) (retries : Nat) (h : Heap),
      (auto_break_repetition o enabled jiggleEnabledForKind ref finalizedPrompt
        response retries h).dispatches ≤ retries := by
  intro o enabled jiggleEnabledForKind ref finalizedPrompt response retries h
  unfold auto_break_repetition
  split
  · exact Nat.zero_le _
  · split
    · exact Nat.zero_le _
    · dsimp only
      split
      · exact Nat.zero_le _
      · exact abrLoop_dispatches_le o ref 32 retries 0 true _ _ _ _

/-- Claim C9 (counterexample): a concrete repetition-break run with one
retry.  The parameter mapping at reference 0 was passed to the initial
dispatch with a 100-token budget; after the retry loop the same reference
holds a 132-token budget while no new mapping was allocated — the
dispatched mapping was mutated in place, which the claim rules out. -/
theorem c9_counterexample_in_place_mutation :
    ((auto_break_repetition c9Oracle true true 0 "Prompt line." "repeat" 1
        c9Heap).heap.get 0).maxTokens ≠ (c9Heap.get 0).maxTokens ∧
    (auto_break_repetition c9Oracle true true 0 "Prompt line." "repeat" 1
        c9Heap).heap.nextRef = c9Heap.nextRef := by
  refine ⟨?_, ?_⟩ <;> decide

/-- Claim C9 (amended): each retry iteration of the repetition-break loop
adjusts the dispatched parameter mapping in place — no copy is ever
allocated (`nextRef` is unchanged) and the max-token pad accumulates
directly on the mapping the dispatches share, growing it by `pad` per
redispatch. -/
theorem c9_amended_in_place_cumulative :
    ∀ (o : ABROracle) (ref pad : Nat) (retries iter : Nat) (isRep : Bool)
      (matched prompt response : String) (h : Heap),
      (abrLoop o ref pad retries iter isRep matched prompt response h).heap.nextRef
          = h.nextRef ∧
      ((abrLoop o ref pad retries iter isRep matched prompt response h).heap.get
            ref).maxTokens
          = (h.get ref).maxTokens
            + pad * (abrLoop o ref pad retries iter isRep matched prompt
                response h).dispatches := by
  intro o ref pad retries
  induction retries with
  | zero =>
    intro iter isRep matched prompt response h
    simp [abrLoop]
  | succ n ih =>
    intro iter isRep matched prompt response h
    cases isRep with
    | false => simp [abrLoop]
    | true =>
      rw [abrLoop]
      simp only [if_true]
      have hstep := ih (iter + 1)
        ((o.sim
          (if pyStrip (o.stripPartial (o.dedupe (o.gen iter) matched)) = ""
            then o.gen iter else o.dedupe (o.gen iter) matched)
          (pySplitChar (repetition_adjustment prompt true) '\n')).1)
        ((o.sim
          (if pyStrip (o.stripPartial (o.dedupe (o.gen iter) matched)) = ""
            then o.gen iter else o.dedupe (o.gen iter) matched)
          (pySplitChar (repetition_adjustment prompt true) '\n')).2)
        (repetition_adjustment prompt true)
        (if pyStrip (o.stripPartial (o.dedupe (o.gen iter) matched)) = ""
          then o.gen iter else o.dedupe (o.gen iter) matched)
        (padMaxTokens (jiggle_randomness h ref (o.temps iter)) ref pad)
      refine ⟨?_, ?_⟩
      · rw [hstep.1]
        rfl
      · rw [hstep.2]
        have hpad : ((padMaxTokens (jiggle_randomness h ref (o.temps iter)) ref
            pad).get ref).maxTokens = (h.get ref).maxTokens + pad := by
          simp [padMaxTokens, jiggle_randomness, heapSet]
        rw [hpad]
        ring

/-- Claim C10: after admission (which consumed one slot) the `finally`
block of `_send_prompt` runs `increment()` once more on every completion of
the attempt — success, caught provider error, or cancellation — so one
logical request consumes two slots of the window whenever capacity allows. -/
theorem c10_cleanup_double_increment :
    ∀ (sceneOk : Nat → Bool) (body : BodyOutcome) (fuel : Nat)
      (c : CounterRateLimiter),
      c.count + 2 ≤ c.maxRequests → 0 < fuel →
      sendPromptWithLimiter sceneOk body fuel c =
        some (bodyResult body, ⟨c.count + 2, c.maxRequests⟩) := by
  intro sceneOk body fuel c hc hf
  cases fuel with
  | zero => exact absurd hf (by omega)
  | succ n =>
    have h1 : c.count < c.maxRequests := by omega
    have h2 : c.count + 1 < c.maxRequests := by omega
    unfold sendPromptWithLimiter admissionLoop
    simp [CounterRateLimiter.increment, h1, h2]

/-- Claim C10 (witness): a request against an empty window of capacity 5
finishes with the counter at 2 — both slots consumed by one dispatch. -/
theorem c10_cleanup_double_increment_witness :
    sendPromptWithLimiter allTrue (BodyOutcome.success "hi") 1 c10wCounter =
      some (bodyResult (BodyOutcome.success "hi"), ⟨2, 5⟩) :=
  c10_cleanup_double_increment allTrue (BodyOutcome.success "hi") 1 c10wCounter
    (by decide) (by decide)

theorem data_mk (l : List Char) : (String.mk l).data = l := rfl

theorem pyContains_eq (s pat : String) :
    pyContains s pat = (splitFirstAux pat.data s.data).isSome := rfl

theorem lt_data : ("<" : String).data = ['<'] := rfl

theorem revision_unslop_none (env : RevisionEnv) (info : RevisionInformation)
    (h : unslopFix env.modelResponse = none) :
    revision_revise RevisionMethod.unslop env info = info.text := by
  unfold revision_revise run_revision_method revision_unslop
  simp [h]

theorem replaceAllAux_of_head_not_mem (pat rep : List Char) (hd : Char)
    (hh : pat.head? = some hd) :
    ∀ (fuel : Nat) (s : List Char), hd ∉ s → replaceAllAux pat rep fuel s = s := by
  intro fuel
  induction fuel with
  | zero =>
    intro s hs
    cases s <;> rfl
  | succ n ih =>
    intro s hs
    cases s with
    | nil => rfl
    | cons c rest =>
      have hc : ¬ hd = c := fun he => hs (by rw [he]; exact List.mem_cons_self c rest)
      have hpre : pat.isPrefixOf (c :: rest) = false := by
        cases pat with
        | nil => simp at hh
        | cons p ps =>
          injection hh with hp
          have hc2 : ¬ p = c := by rw [hp]; exact hc
          have hbeq : (p == c) = false := beq_false_of_ne hc2
          simp [List.isPrefixOf, hbeq]
      have hrest : hd ∉ rest := fun hm => hs (List.mem_cons_of_mem c hm)
      rw [replaceAllAux, hpre]
      simp [ih rest hrest]

theorem pyReplace_self_of_head_not_mem (s pat rep : String) (hd : Char)
    (hh : pat.data.head? = some hd) (hs : hd ∉ s.data) :
    pyReplace s pat rep = s := by
  unfold pyReplace
  rw [replaceAllAux_of_head_not_mem pat.data rep.data hd hh s.data.length s.data hs]

/-- Claim C2 (counterexample): an input with zero detected issues (no
repetition matches, no bad-prose findings) on which the unslop method does
not return the text unchanged — it still dispatches the model call and
applies whatever `<FIX>` patch comes back. -/
theorem c2_counterexample_unslop_not_noop :
    c2xEnv.matchList = [] ∧ c2xEnv.badProseFound = [] ∧
    revision_revise RevisionMethod.unslop c2xEnv c2xInfo
      = "Something else entirely." ∧
    revision_revise RevisionMethod.unslop c2xEnv c2xInfo ≠ c2xInfo.text := by
  refine ⟨rfl, rfl, ?_, ?_⟩ <;> decide

/-- Claim C2 (amended): with zero detected issues the dedupe and rewrite
methods return the text unchanged; unslop still performs its model call and
returns the text unchanged only when the response yields no patch (here:
when the opening delimiter is absent). -/
theorem c2_amended_no_issue_noop :
    ∀ (env : RevisionEnv) (info : RevisionInformation),
      env.matchList = [] → env.badProseFound = [] →
      revision_revise RevisionMethod.dedupe env info = info.text ∧
      revision_revise RevisionMethod.rewrite env info = info.text ∧
      (pyContains env.modelResponse "<FIX>" = false →
        revision_revise RevisionMethod.unslop env info = info.text) := by
  intro env info hm hb
  refine ⟨?_, ?_, ?_⟩
  · unfold revision_revise run_revision_method revision_dedupe
    simp [collectIssues, hm]
  · unfold revision_revise run_revision_method revision_rewrite
    simp [collectIssues, Issues.log, hm, hb]
  · intro hfix
    refine revision_unslop_none env info ?_
    rw [pyContains_eq] at hfix
    unfold unslopFix
    cases hsp : splitFirstAux ("<FIX>").data env.modelResponse.data with
    | none => rfl
    | some p => rw [hsp] at hfix; simp at hfix

/-- Claim C2 (witness): the amended theorem at a concrete zero-issue input
whose unslop response carries no patch. -/
theorem c2_amended_witness :
    revision_revise RevisionMethod.unslop c2wEnv c2wInfo = c2wInfo.text :=
  (c2_amended_no_issue_noop c2wEnv c2wInfo rfl rfl).2.2 (by decide)

/-- Claim C3 (counterexample): a response whose extracted patch is a single
space.  The patch is empty after trimming, so the claim requires the
original text back — but the emptiness test of the code runs before the
`strip()`, the whitespace patch slips through, and the empty string is
returned instead of the original text. -/
theorem c3_counterexample_whitespace_patch :
    pyStrip (pyBeforeFirst (pyAfterFirst c3xEnv.modelResponse "<FIX>") "</FIX>")
      = "" ∧
    revision_revise RevisionMethod.unslop c3xEnv c3xInfo = "" ∧
    revision_revise RevisionMethod.unslop c3xEnv c3xInfo ≠ c3xInfo.text := by
  refine ⟨?_, ?_, ?_⟩ <;> decide

/-- Claim C3 (amended): the unslop method returns the original text
unchanged when the opening delimiter is absent, when the closing delimiter
is absent while another `<` occurs in the remainder, or when the extracted
patch is empty before trimming; a whitespace-only patch passes the
emptiness test and is returned stripped instead. -/
theorem c3_amended_unslop_abort_conditions :
    ∀ (env : RevisionEnv) (info : RevisionInformation),
      (pyContains env.modelResponse "<FIX>" = false →
        revision_revise RevisionMethod.unslop env info = info.text) ∧
      (pyContains (pyAfterFirst env.modelResponse "<FIX>") "</FIX>" = false →
        pyContains (pyAfterFirst env.modelResponse "<FIX>") "<" = true →
        revision_revise RevisionMethod.unslop env info = info.text) ∧
      (pyContains env.modelResponse "<FIX>" = true →
        pyContains (pyAfterFirst env.modelResponse "<FIX>") "</FIX>" = true →
        pyBeforeFirst (pyAfterFirst env.modelResponse "<FIX>") "</FIX>" = "" →
        revision_revise RevisionMethod.unslop env info = info.text) ∧
      (pyContains env.modelResponse "<FIX>" = true →
        pyContains (pyAfterFirst env.modelResponse "<FIX>") "</FIX>" = false →
        pyContains (pyAfterFirst env.modelResponse "<FIX>") "<" = false →
        pyAfterFirst env.modelResponse "<FIX>" = "" →
        revision_revise RevisionMethod.unslop env info = info.text) := by
  intro env info
  refine ⟨?_, ?_, ?_, ?_⟩
  · intro h1
    refine revision_unslop_none env info ?_
    rw [pyContains_eq] at h1
    unfold unslopFix
    cases hsp : splitFirstAux ("<FIX>").data env.modelResponse.data with
    | none => rfl
    | some p => rw [hsp] at h1; simp at h1
  · intro h2 h3
    refine revision_unslop_none env info ?_
    unfold unslopFix
    cases hsp : splitFirstAux ("<FIX>").data env.modelResponse.data with
    | none => rfl
    | some p =>
      have hA : pyAfterFirst env.modelResponse "<FIX>" = String.mk p.2 := by
        unfold pyAfterFirst
        rw [hsp]
      rw [hA, pyContains_eq, data_mk] at h2 h3
      rw [lt_data] at h3
      cases hq : splitFirstAux ("</FIX>").data p.2 with
      | some q => rw [hq] at h2; simp at h2
      | none =>
        dsimp only
        rw [hq]
        simp [h3]
  · intro h1 h2 h3
    refine revision_unslop_none env info ?_
    rw [pyContains_eq] at h1
    unfold unslopFix
    cases hsp : splitFirstAux ("<FIX>").data env.modelResponse.data with
    | none => rfl
    | some p =>
      have hA : pyAfterFirst env.modelResponse "<FIX>" = String.mk p.2 := by
        unfold pyAfterFirst
        rw [hsp]
      rw [hA, pyContains_eq, data_mk] at h2
      rw [hA] at h3
      cases hq : splitFirstAux ("</FIX>").data p.2 with
      | none => rw [hq] at h2; simp at h2
      | some q =>
        have hB : pyBeforeFirst (String.mk p.2) "</FIX>" = String.mk q.1 := by
          unfold pyBeforeFirst
          rw [data_mk, hq]
        rw [hB] at h3
        have hq1 : q.1 = [] := congrArg String.data h3
        dsimp only
        rw [hq]
        simp [hq1]
  · intro h1 h2 h3 h4
    refine revision_unslop_none env info ?_
    unfold unslopFix
    cases hsp : splitFirstAux ("<FIX>").data env.modelResponse.data with
    | none => rfl
    | some p =>
      have hA : pyAfterFirst env.modelResponse "<FIX>" = String.mk p.2 := by
        unfold pyAfterFirst
        rw [hsp]
      rw [hA] at h4
      have hp2 : p.2 = [] := congrArg String.data h4
      dsimp only
      rw [hp2]
      rfl

/-- Claim C3 (witness): the amended theorem at the concrete no-delimiter
response of the spec example. -/
theorem c3_amended_witness :
    revision_revise RevisionMethod.unslop c3wEnv c3wInfo = c3wInfo.text :=
  (c3_amended_unslop_abort_conditions c3wEnv c3wInfo).1 (by decide)

/-- Claim C7 (amended): when dedupe removes matched sentences and the
reduction percentage, rounded to two decimals as the code computes it,
exceeds 90, the revision returns the original input text unchanged. -/
theorem c7_amended_dedupe_safety_valve :
    ∀ (env : RevisionEnv) (info : RevisionInformation),
      env.matchList ≠ [] →
      (dedupe_input info).length ≠ 0 →
      9000 < reductionTimes100 (dedupe_input info).length
        (dedupe_cleaned env info).length →
      revision_revise RevisionMethod.dedupe env info = info.text := by
  intro env info hm hlen hred
  unfold revision_revise run_revision_method revision_dedupe
  have hm2 : (collectIssues env.matchList env.badProseFound
      false).repetition_matches.isEmpty = false := by
    rw [collectIssues_repetition_matches]
    cases henv : env.matchList with
    | nil => exact absurd henv hm
    | cons a l => rfl
  simp [hm2, hlen, hred]

/-- Claim C7 (witness): the amended theorem at a 95 percent reduction. -/
theorem c7_amended_witness :
    revision_revise RevisionMethod.dedupe c7wEnv c7wInfo = c7wInfo.text :=
  c7_amended_dedupe_safety_valve c7wEnv c7wInfo (by decide) (by decide) (by decide)

theorem c7xText_length : c7xText.length = 2001 := by
  simp [c7xText, String.length]

theorem c7xDedupe_length : c7xDedupe.length = 200 := by
  simp [c7xDedupe, String.length]

theorem quote_not_mem_c7xDedupe : '"' ∉ c7xDedupe.data := by
  intro h
  rw [show c7xDedupe.data = List.replicate 200 'b' from rfl,
    List.mem_replicate] at h
  exact absurd h.2 (by decide)

theorem star_not_mem_c7xDedupe : '*' ∉ c7xDedupe.data := by
  intro h
  rw [show c7xDedupe.data = List.replicate 200 'b' from rfl,
    List.mem_replicate] at h
  exact absurd h.2 (by decide)

theorem c7x_dedupe_cleaned : dedupe_cleaned c7xEnv c7xInfo = c7xDedupe := by
  unfold dedupe_cleaned
  show pyReplace (pyReplace c7xDedupe "\"\"" "") "**" "" = c7xDedupe
  rw [pyReplace_self_of_head_not_mem c7xDedupe "\"\"" "" '"' rfl
    quote_not_mem_c7xDedupe]
  rw [pyReplace_self_of_head_not_mem c7xDedupe "**" "" '*' rfl
    star_not_mem_c7xDedupe]

theorem c7x_dedupe_input : dedupe_input c7xInfo = c7xText := rfl

/-- Claim C7 (counterexample): 2001 characters dedupe down to 200 — a
reduction of 1801/2001, strictly more than 90 percent of the original
length, which the claim says must revert to the original text.  The code
rounds the percentage (90.0049...) to 90.00 before comparing, keeps the
deduped text, and returns 200 characters of output instead of the original
2001. -/
theorem c7_counterexample_rounding_boundary :
    9 * ((dedupe_input c7xInfo).length : Int) <
      10 * (((dedupe_input c7xInfo).length : Int)
        - ((dedupe_cleaned c7xEnv c7xInfo).length : Int)) ∧
    revision_revise RevisionMethod.dedupe c7xEnv c7xInfo ≠ c7xInfo.text := by
  have hin : (dedupe_input c7xInfo).length = 2001 := by
    rw [c7x_dedupe_input, c7xText_length]
  have hcl : (dedupe_cleaned c7xEnv c7xInfo).length = 200 := by
    rw [c7x_dedupe_cleaned, c7xDedupe_length]
  constructor
  · rw [hin, hcl]
    norm_num
  · have hm2 : (collectIssues c7xEnv.matchList c7xEnv.badProseFound
        false).repetition_matches.isEmpty = false := rfl
    have hlen : ¬ (dedupe_input c7xInfo).length = 0 := by
      rw [hin]
      omega
    have hred : ¬ 9000 < reductionTimes100 (dedupe_input c7xInfo).length
        (dedupe_cleaned c7xEnv c7xInfo).length := by
      rw [hin, hcl]
      decide
    have hres : revision_revise RevisionMethod.dedupe c7xEnv c7xInfo
        = dedupe_cleaned c7xEnv c7xInfo := by
      have hstrip : (stripName c7xInfo.text c7xInfo.characterName).1 = false := rfl
      unfold revision_revise run_revision_method revision_dedupe
      simp [hm2, hlen, hred, reattachName, hstrip]
    rw [hres]
    intro heq
    have := congrArg String.length heq
    rw [hcl] at this
    have h2001 : c7xInfo.text.length = 2001 := c7xText_length
    rw [h2001] at this
    exact absurd this (by omega)

/-- Claim C8 (counterexample): non-empty input, unslop response whose patch
is two spaces — the patch passes the pre-strip emptiness test, is stripped
to nothing, and the revision call returns the empty string. -/
theorem c8_counterexample_unslop_empty :
    c8xInfo.text ≠ "" ∧
    revision_revise RevisionMethod.unslop c8xEnv c8xInfo = "" := by
  refine ⟨?_, ?_⟩ <;> decide

/-- Claim C8 (amended): for non-empty input the dedupe method never returns
the empty string, and any exception inside a revision method makes
`revision_revise` return the original text unchanged; the unslop method can
return the empty string when the model emits a whitespace-only patch (and
the rewrite method when the tool call returns an empty text). -/
theorem c8_amended_nonempty_fail_safe :
    ∀ (env : RevisionEnv) (info : RevisionInformation),
      info.text ≠ "" →
      revision_revise RevisionMethod.dedupe env info ≠ "" ∧
      (∀ (m : RevisionMethod) (e : RevError),
        run_revision_method m env info = Except.error e →
        revision_revise m env info = info.text) := by
  intro env info ht
  constructor
  · unfold revision_revise run_revision_method revision_dedupe
    cases hM : (collectIssues env.matchList env.badProseFound
        false).repetition_matches.isEmpty with
    | true =>
      simp [hM]
      exact ht
    | false =>
      by_cases h0 : (dedupe_input info).length = 0
      · simp [hM, h0]
        exact ht
      · by_cases hr : 9000 < reductionTimes100 (dedupe_input info).length
            (dedupe_cleaned env info).length
        · simp [hM, h0, hr]
          exact ht
        · have hd0 : (dedupe_cleaned env info).length ≠ 0 := by
            intro hd
            rw [hd] at hr
            exact hr (by rw [reductionTimes100_full _ h0]; omega)
          simp [hM, h0, hr, reattachName]
          cases hhad : (stripName info.text info.characterName).1 with
          | true =>
            simp [hhad]
            exact name_colon_append_ne_empty _ _
          | false =>
            simp [hhad]
            exact string_ne_empty_of_length_ne_zero hd0
  · intro m e he
    unfold revision_revise
    rw [he]

/-- Claim C8 (witness): the amended theorem at a concrete non-empty
input. -/
theorem c8_amended_witness :
    revision_revise RevisionMethod.dedupe c8wEnv c8wInfo ≠ "" :=
  (c8_amended_nonempty_fail_safe c8wEnv c8wInfo (by decide)).1
